import Mathlib

/-!
Shallow embedding of the `ualRate` pension simulation (files `pensFund.py`
and `pensPlan.py`).  Python floats are modelled as rationals; Python's
`round(x, 2)` (round-half-to-even at two decimal places) is modelled by
`round2`; a Python `ZeroDivisionError` aborting an operation is modelled by
the operation returning `none`.  Stochastic draws (`np.random.normal`) and
the results produced by the external population component (`pensPop`, not
part of this repository's core sources) enter the embedded operations as
explicit parameters.
-/

namespace UalRate

/-- Round-half-to-even on rationals, Python's `round` tie-breaking rule. -/
def roundHalfEven (x : ℚ) : ℤ :=
  let f := Int.floor x
  if x - (f : ℚ) < 1/2 then f
  else if 1/2 < x - (f : ℚ) then f + 1
  else if f % 2 = 0 then f else f + 1

/-- Python's `round(x, 2)`: round to two decimal places, ties to even. -/
def round2 (x : ℚ) : ℚ := (roundHalfEven (100 * x) : ℚ) / 100

/-- Sum of a balance triple, Python's `sum([equity, bonds, other])`. -/
def sumBal (t : ℚ × ℚ × ℚ) : ℚ := t.1 + t.2.1 + t.2.2

/-- State of `pensFund`: current year, the static allocation fractions
`pcts = [pctE, pctB, pctO]`, the three balances, and the per-year ledger
(a Python dict, modelled as a partial map from years to balance triples).
The volatility parameters are omitted: they feed only the random draws,
which are explicit parameters of `addInvestmentEarnings` here. -/
structure pensFund where
  currentYear : ℤ
  pcts : ℚ × ℚ × ℚ
  equity : ℚ
  bonds : ℚ
  other : ℚ
  ledger : ℤ → Option (ℚ × ℚ × ℚ)

/-- `self.equity + self.bonds + self.other`, the recurring total. -/
def pensFund.total (f : pensFund) : ℚ := f.equity + f.bonds + f.other

/-- `pensFund.__init__(assetTotal, currYear, volatility, pctE, pctB, pctO)`:
split `assetTotal` by the allocation fractions, round each balance to two
decimals, and start the ledger with this year's triple. -/
def pensFund.init (assetTotal : ℚ) (currYear : ℤ) (pctE pctB pctO : ℚ) : pensFund :=
  let e := round2 (pctE * assetTotal)
  let b := round2 (pctB * assetTotal)
  let o := round2 (pctO * assetTotal)
  { currentYear := currYear
    pcts := (pctE, pctB, pctO)
    equity := e
    bonds := b
    other := o
    ledger := fun y => if y = currYear then some (e, b, o) else none }

/-- `pensFund.payGo`: if the total is nonnegative, return 0 and leave the
state alone; otherwise accumulate `-asset` over the negative balances,
clamp every balance at 0 with `max`, and return the accumulated amount. -/
def pensFund.payGo (f : pensFund) : pensFund × ℚ :=
  if 0 ≤ f.total then (f, 0)
  else
    let amount := (if f.equity < 0 then -f.equity else 0) +
                  (if f.bonds < 0 then -f.bonds else 0) +
                  (if f.other < 0 then -f.other else 0)
    ({ f with equity := max f.equity 0
              bonds := max f.bonds 0
              other := max f.other 0 }, amount)

/-- `pensFund.addPremiums(premiums)`: split the amount by the static
fractions when the total is 0, otherwise by each balance's current share
of the total.  No rounding is performed. -/
def pensFund.addPremiums (f : pensFund) (premiums : ℚ) : pensFund :=
  if f.total = 0 then
    { f with equity := f.equity + f.pcts.1 * premiums
             bonds := f.bonds + f.pcts.2.1 * premiums
             other := f.other + f.pcts.2.2 * premiums }
  else
    { f with equity := f.equity + (f.equity / f.total) * premiums
             bonds := f.bonds + (f.bonds / f.total) * premiums
             other := f.other + (f.other / f.total) * premiums }

/-- The subtraction phase of `pensFund.payBenefits(benefits)` (its body up
to the final `return self.payGo()`): the mirror image of `addPremiums`.
No rounding is performed. -/
def pensFund.withdraw (f : pensFund) (benefits : ℚ) : pensFund :=
  if f.total = 0 then
    { f with equity := f.equity - f.pcts.1 * benefits
             bonds := f.bonds - f.pcts.2.1 * benefits
             other := f.other - f.pcts.2.2 * benefits }
  else
    { f with equity := f.equity - (f.equity / f.total) * benefits
             bonds := f.bonds - (f.bonds / f.total) * benefits
             other := f.other - (f.other / f.total) * benefits }

/-- `pensFund.payBenefits(benefits)`: proportional withdrawal, then
`return self.payGo()`. -/
def pensFund.payBenefits (f : pensFund) (benefits : ℚ) : pensFund × ℚ :=
  (f.withdraw benefits).payGo

/-- `pensFund.addInvestmentEarnings()` with the three normal draws `e`,
`b`, `o` passed in: record the prior total `A`, apply the returns
multiplicatively, round each balance to two decimals, and return
`[(newA - A) / A, A]`.  The division raises `ZeroDivisionError` when
`A = 0` (modelled by `none`); note the state mutation in the Python code
precedes the raise, but the exception aborts the enclosing call. -/
def pensFund.addInvestmentEarnings (f : pensFund) (e b o : ℚ) :
    Option (pensFund × ℚ × ℚ) :=
  let A := f.total
  let eq := round2 (f.equity * (1 + e))
  let bo := round2 (f.bonds * (1 + b))
  let ot := round2 (f.other * (1 + o))
  let newA := eq + bo + ot
  if A = 0 then none
  else some ({ f with equity := eq, bonds := bo, other := ot }, ((newA - A) / A, A))

/-- `pensFund.updateLedger(year)`: set `currentYear` to `year` and store
the current balances at key `year` in the ledger. -/
def pensFund.updateLedger (f : pensFund) (year : ℤ) : pensFund :=
  { f with currentYear := year
           ledger := fun y =>
             if y = year then some (f.equity, f.bonds, f.other) else f.ledger y }

/-- Result of `pensFund.annualReport`: either the formatted balances of a
recorded year (string rendering abstracted to the numbers it displays,
with the total rounded to two decimals), or the descriptive
"Assets could not be found for the year ..." value. -/
inductive Report where
  | found (equity bonds other total : ℚ)
  | notFound (year : ℤ)
deriving DecidableEq

/-- `pensFund.annualReport(year)`: `year = 0` is the sentinel for the
current year; a recorded year yields its triple and the rounded total, an
absent year yields the descriptive not-found value. -/
def pensFund.annualReport (f : pensFund) (year : ℤ) : Report :=
  let y := if year = 0 then f.currentYear else year
  match f.ledger y with
  | some t => Report.found t.1 t.2.1 t.2.2 (round2 (sumBal t))
  | none => Report.notFound y

/-- Scalar state of `pensPlan` (the owned population is external to this
repository's sources; its per-year outputs enter `advanceOneYear` as
parameters). -/
structure pensPlan where
  currentYear : ℤ
  employ : ℚ
  cr : ℚ
  payGo : ℚ
  totalPay : ℚ
  pr : ℚ
  instability : ℚ
  r : ℚ
  discountRate : ℚ
  liability : ℚ
  ual : ℚ
  assets : ℚ
  growthRate : ℚ
  fund : pensFund

/-- The contribution-rate step of `pensPlan.advanceOneYear` (its lines
83-90): the `popGrowth != 0` branch divides by `totalPay * popGrowth` with
no guard (`ZeroDivisionError`, modelled by `none`); only the
`popGrowth == 0` branch wraps its division in `try/except`, falling back
to `0.0`. -/
def computeCR (normalCost payGo totalPay : ℚ) (popGrowth : ℤ) : Option ℚ :=
  if popGrowth ≠ 0 then
    if totalPay * (popGrowth : ℚ) = 0 then none
    else some ((normalCost + payGo) / (totalPay * (popGrowth : ℚ)))
  else
    if totalPay = 0 then some 0
    else some ((normalCost + payGo) / totalPay)

/-- The UAL-growth-rate step of `pensPlan.advanceOneYear` (its lines
94-101): try `(newUAL - ual) * 100 / ual`; on `ZeroDivisionError`
(that is, when the old UAL is 0) fall back to `newUAL * 100 / liability`
when `newUAL != 0` — itself unguarded, `none` when `liability = 0` —
else `0.0`; finally round to two decimals. -/
def growthRateStep (newUAL oldUAL liability : ℚ) : Option ℚ :=
  if oldUAL ≠ 0 then some (round2 ((newUAL - oldUAL) * 100 / oldUAL))
  else if newUAL ≠ 0 then
    if liability = 0 then none else some (round2 (newUAL * 100 / liability))
  else some (round2 0)

/-- `pensPlan.advanceOneYear()`.  The population-driven quantities are
parameters: `popGrowth` (net change in active members across the hiring
step), `benefit` (`info['benefit']`), `rawLiability` and `rawPay` (the
unrounded results of `calculateTotalLiability` / `calculateTotalSalary`),
and `e`, `b`, `o` (the three normal draws inside
`addInvestmentEarnings`).  `none` models an uncaught
`ZeroDivisionError` aborting the call. -/
def advanceOneYear (p : pensPlan) (popGrowth : ℤ) (benefit rawLiability rawPay : ℚ)
    (e b o : ℚ) : Option pensPlan :=
  let year := p.currentYear + 1
  let newLiability := round2 rawLiability
  let normalCost := newLiability - p.liability
  let totalPay := round2 rawPay
  match p.fund.addInvestmentEarnings e b o with
  | none => none
  | some (f1, r, A) =>
    let contribution := p.pr * normalCost
    let f2 := f1.addPremiums contribution
    let pb := f2.payBenefits benefit
    let payGo := round2 pb.2
    let f4 := pb.1.updateLedger year
    let assets := sumBal ((f4.ledger year).getD (0, 0, 0))
    let instability := (contribution + p.discountRate * newLiability) - (r * A + normalCost)
    match computeCR normalCost payGo totalPay popGrowth with
    | none => none
    | some cr =>
      let newUAL := max (newLiability - assets - payGo) 0
      match growthRateStep newUAL p.ual newLiability with
      | none => none
      | some gr =>
        some { p with currentYear := year, liability := newLiability, totalPay := totalPay,
                      r := round2 (r * 100), payGo := payGo, fund := f4, assets := assets,
                      instability := instability, cr := cr, ual := newUAL, growthRate := gr }

/-! ### Concrete states used by witnesses and counterexamples -/

/-- The spec's worked example for `payGo`: balances (−50, 30, 10). -/
def fundC1 : pensFund :=
  { currentYear := 2020, pcts := (3/5, 3/10, 1/10),
    equity := -50, bonds := 30, other := 10, ledger := fun _ => none }

/-- A fund with a negative equity balance but positive total. -/
def fundC10 : pensFund :=
  { currentYear := 2020, pcts := (3/5, 3/10, 1/10),
    equity := -5, bonds := 10, other := 0, ledger := fun _ => none }

/-- A solvent fund overdrawn by a benefit call: balances (10, 10, 10). -/
def fundC5 : pensFund :=
  { currentYear := 2020, pcts := (3/5, 3/10, 1/10),
    equity := 10, bonds := 10, other := 10, ledger := fun _ => none }

/-- A fund whose balances are exact but whose proportional premium split
produces a repeating decimal: balances (1, 1, 1). -/
def fundC2 : pensFund :=
  { currentYear := 2020, pcts := (3/5, 3/10, 1/10),
    equity := 1, bonds := 1, other := 1, ledger := fun _ => none }

/-- A fund with nonzero total for exercising the earnings clause. -/
def fundC2w : pensFund :=
  { currentYear := 2020, pcts := (3/5, 3/10, 1/10),
    equity := 200, bonds := 100, other := 100, ledger := fun _ => none }

/-- A fund with a recorded year 2020, for the frame witness. -/
def fundC7 : pensFund :=
  { currentYear := 2020, pcts := (3/5, 3/10, 1/10),
    equity := 7, bonds := 2, other := 1,
    ledger := fun y => if y = 2020 then some (5, 3, 2) else none }

/-- A fund with one recorded year (2020) and 2019 absent. -/
def fundC8 : pensFund :=
  { currentYear := 2020, pcts := (3/5, 3/10, 1/10),
    equity := 120, bonds := 60, other := 20,
    ledger := fun y => if y = 2020 then some (120, 60, 20) else none }

/-- The all-zero fund, on which the earnings step divides by zero. -/
def fundC9 : pensFund :=
  { currentYear := 2020, pcts := (3/5, 3/10, 1/10),
    equity := 0, bonds := 0, other := 0, ledger := fun _ => none }

/-- A fund with nonzero total, on which the earnings step succeeds. -/
def fundC9b : pensFund :=
  { currentYear := 2020, pcts := (3/5, 3/10, 1/10),
    equity := 100, bonds := 0, other := 0, ledger := fun _ => none }

/-- The fund owned by the concrete plan used in the plan-level witnesses:
balances (500, 0, 0) recorded for year 2000. -/
def fundP : pensFund :=
  { currentYear := 2000, pcts := (3/5, 3/10, 1/10), equity := 500, bonds := 0, other := 0,
    ledger := fun y => if y = 2000 then some (500, 0, 0) else none }

/-- A concrete plan state: year 2000, liability 1000, assets 500, UAL 0,
premium rate 0, discount rate 7%. -/
def planW : pensPlan :=
  { currentYear := 2000, employ := 1, cr := 0, payGo := 0, totalPay := 0, pr := 0,
    instability := 1, r := 0, discountRate := 7/100, liability := 1000, ual := 0,
    assets := 500, growthRate := 0, fund := fundP }

/-- The state `planW` reaches after one year with population outputs
`popGrowth = 0`, `benefit = 0`, raw liability 1000, raw payroll 1, and
zero-variance draws. -/
def planW2 : pensPlan :=
  { currentYear := 2001, employ := 1, cr := 0, payGo := 0, totalPay := 1, pr := 0,
    instability := 70, r := 0, discountRate := 7/100, liability := 1000, ual := 500,
    assets := 500, growthRate := 50,
    fund := { currentYear := 2001, pcts := (3/5, 3/10, 1/10), equity := 500, bonds := 0,
              other := 0,
              ledger := fun y => if y = 2001 then some (500, 0, 0)
                                 else if y = 2000 then some (500, 0, 0) else none } }

/-! ### Evaluation lemmas for the rounding model -/

theorem roundHalfEven_intCast (n : ℤ) : roundHalfEven (n : ℚ) = n := by
  unfold roundHalfEven
  norm_num

theorem roundHalfEven_eq_of_bounds (x : ℚ) (n : ℤ) (h1 : (n : ℚ) ≤ x) (h2 : x < n + 1) :
    roundHalfEven x =
      if x - n < 1/2 then n
      else if 1/2 < x - (n : ℚ) then n + 1
      else if n % 2 = 0 then n else n + 1 := by
  have hf : Int.floor x = n := by
    rw [Int.floor_eq_iff]
    exact ⟨h1, h2⟩
  unfold roundHalfEven
  rw [hf]

/-- A value that is already an exact multiple of 1/100 is its own rounding. -/
theorem round2_of_mul_eq (x : ℚ) (n : ℤ) (h : 100 * x = (n : ℚ)) : round2 x = x := by
  unfold round2
  rw [h, roundHalfEven_intCast]
  rw [div_eq_iff (by norm_num : (100 : ℚ) ≠ 0)]
  linarith

/-- The nonpositive part used by `payGo`'s accumulator equals the
absolute-value form used by the specification. -/
theorem negPart_eq_absPart (x : ℚ) :
    (if x < 0 then -x else 0) = (if x < 0 then |x| else 0) := by
  by_cases h : x < 0
  · simp [h, abs_of_neg h]
  · simp [h]

/-- C1: `payGo` zeroes every negative sub-balance and returns the total
shortfall magnitude when the sum of balances is negative; when the sum is
nonnegative it returns 0 and mutates nothing. -/
theorem payGo_shortfall_correction (f : pensFund) :
    (f.total < 0 →
      f.payGo.1.equity = (if f.equity < 0 then 0 else f.equity) ∧
      f.payGo.1.bonds = (if f.bonds < 0 then 0 else f.bonds) ∧
      f.payGo.1.other = (if f.other < 0 then 0 else f.other) ∧
      f.payGo.2 = (if f.equity < 0 then |f.equity| else 0) +
                  (if f.bonds < 0 then |f.bonds| else 0) +
                  (if f.other < 0 then |f.other| else 0)) ∧
    (0 ≤ f.total → f.payGo = (f, 0)) := by
  constructor
  · intro h
    unfold pensFund.payGo
    rw [if_neg (not_le.mpr h)]
    refine ⟨?_, ?_, ?_, ?_⟩
    · show max f.equity 0 = _
      by_cases h1 : f.equity < 0
      · rw [if_pos h1]; exact max_eq_right h1.le
      · rw [if_neg h1]; exact max_eq_left (not_lt.mp h1)
    · show max f.bonds 0 = _
      by_cases h1 : f.bonds < 0
      · rw [if_pos h1]; exact max_eq_right h1.le
      · rw [if_neg h1]; exact max_eq_left (not_lt.mp h1)
    · show max f.other 0 = _
      by_cases h1 : f.other < 0
      · rw [if_pos h1]; exact max_eq_right h1.le
      · rw [if_neg h1]; exact max_eq_left (not_lt.mp h1)
    · show (if f.equity < 0 then -f.equity else 0) +
           (if f.bonds < 0 then -f.bonds else 0) +
           (if f.other < 0 then -f.other else 0) = _
      rw [negPart_eq_absPart, negPart_eq_absPart, negPart_eq_absPart]
  · intro h
    unfold pensFund.payGo
    rw [if_pos h]

theorem payGo_shortfall_correction_witness :
    fundC1.total < 0 ∧ fundC1.payGo.1.equity = 0 ∧ fundC1.payGo.1.bonds = 30 ∧
    fundC1.payGo.1.other = 10 ∧ fundC1.payGo.2 = 50 := by
  have h : fundC1.total < 0 := by norm_num [fundC1, pensFund.total]
  obtain ⟨h1, h2, h3, h4⟩ := (payGo_shortfall_correction fundC1).1 h
  refine ⟨h, ?_, ?_, ?_, ?_⟩
  · rw [h1]; norm_num [fundC1]
  · rw [h2]; norm_num [fundC1]
  · rw [h3]; norm_num [fundC1]
  · rw [h4]; norm_num [fundC1]

/-- C10: when some sub-balance is negative but the total is nonnegative,
`payGo` returns 0 and leaves the negative sub-balance in place. -/
theorem payGo_leaves_negative_balance_when_solvent (f : pensFund)
    (_hneg : f.equity < 0 ∨ f.bonds < 0 ∨ f.other < 0) (h : 0 ≤ f.total) :
    f.payGo = (f, 0) := by
  unfold pensFund.payGo
  rw [if_pos h]

theorem payGo_leaves_negative_balance_when_solvent_witness :
    fundC10.equity < 0 ∧ 0 ≤ fundC10.total ∧ fundC10.payGo = (fundC10, 0) :=
  ⟨by norm_num [fundC10], by norm_num [fundC10, pensFund.total],
   payGo_leaves_negative_balance_when_solvent fundC10
     (Or.inl (by norm_num [fundC10])) (by norm_num [fundC10, pensFund.total])⟩

/-- C5 (amended): for a fund with positive total, `addPremiums` changes
each balance by its pre-operation share of the total times the amount, and
the withdrawal phase of `payBenefits` by minus that; at total 0 the static
fractions are used instead.  `payBenefits` then applies the shortfall
correction, which mutates nothing (and returns 0) when the post-withdrawal
total is nonnegative — only then is its net effect the proportional one. -/
theorem premiums_benefits_proportional (f : pensFund) (amt : ℚ) :
    (0 < f.total →
      (f.addPremiums amt).equity - f.equity = (f.equity / f.total) * amt ∧
      (f.addPremiums amt).bonds - f.bonds = (f.bonds / f.total) * amt ∧
      (f.addPremiums amt).other - f.other = (f.other / f.total) * amt ∧
      (f.withdraw amt).equity - f.equity = -((f.equity / f.total) * amt) ∧
      (f.withdraw amt).bonds - f.bonds = -((f.bonds / f.total) * amt) ∧
      (f.withdraw amt).other - f.other = -((f.other / f.total) * amt)) ∧
    (f.total = 0 →
      (f.addPremiums amt).equity - f.equity = f.pcts.1 * amt ∧
      (f.addPremiums amt).bonds - f.bonds = f.pcts.2.1 * amt ∧
      (f.addPremiums amt).other - f.other = f.pcts.2.2 * amt ∧
      (f.withdraw amt).equity - f.equity = -(f.pcts.1 * amt) ∧
      (f.withdraw amt).bonds - f.bonds = -(f.pcts.2.1 * amt) ∧
      (f.withdraw amt).other - f.other = -(f.pcts.2.2 * amt)) ∧
    f.payBenefits amt = (f.withdraw amt).payGo ∧
    (0 ≤ (f.withdraw amt).total → f.payBenefits amt = (f.withdraw amt, 0)) := by
  refine ⟨?_, ?_, rfl, ?_⟩
  · intro h
    have hne : f.total ≠ 0 := ne_of_gt h
    unfold pensFund.addPremiums pensFund.withdraw
    rw [if_neg hne, if_neg hne]
    refine ⟨by ring, by ring, by ring, by ring, by ring, by ring⟩
  · intro h
    unfold pensFund.addPremiums pensFund.withdraw
    rw [if_pos h, if_pos h]
    refine ⟨by ring, by ring, by ring, by ring, by ring, by ring⟩
  · intro h
    unfold pensFund.payBenefits pensFund.payGo
    rw [if_pos h]

/-- C5 as stated is false: withdrawing 60 from (10, 10, 10) does not
change equity by its share −20 (to −10); the shortfall correction inside
`payBenefits` zeroes it to 0. -/
theorem premiums_benefits_proportional_counterexample :
    0 < fundC5.total ∧
    (fundC5.payBenefits 60).1.equity ≠
      fundC5.equity - (fundC5.equity / fundC5.total) * 60 := by
  constructor
  · norm_num [fundC5, pensFund.total]
  · norm_num [fundC5, pensFund.payBenefits, pensFund.withdraw, pensFund.payGo,
      pensFund.total, max_def]

theorem premiums_benefits_proportional_witness :
    0 < fundC5.total ∧
    (fundC5.addPremiums 30).equity - fundC5.equity =
      (fundC5.equity / fundC5.total) * 30 ∧
    0 ≤ (fundC5.withdraw 30).total ∧
    fundC5.payBenefits 30 = (fundC5.withdraw 30, 0) := by
  have h : 0 < fundC5.total := by norm_num [fundC5, pensFund.total]
  have h2 : 0 ≤ (fundC5.withdraw 30).total := by
    norm_num [fundC5, pensFund.withdraw, pensFund.total]
  exact ⟨h, ((premiums_benefits_proportional fundC5 30).1 h).1, h2,
    (premiums_benefits_proportional fundC5 30).2.2.2 h2⟩

/-- C2 (amended): construction and `addInvestmentEarnings` leave each
balance equal to the two-decimal rounding of the arithmetic that produced
it; `addPremiums` and the withdrawal inside `payBenefits` leave each
balance equal to the raw, unrounded add/subtract result. -/
theorem balance_rounding_policy (assetTotal : ℚ) (cy : ℤ) (pE pB pO : ℚ)
    (f f' : pensFund) (amt e b o r A : ℚ)
    (hE : f.addInvestmentEarnings e b o = some (f', r, A)) :
    (pensFund.init assetTotal cy pE pB pO).equity = round2 (pE * assetTotal) ∧
    (pensFund.init assetTotal cy pE pB pO).bonds = round2 (pB * assetTotal) ∧
    (pensFund.init assetTotal cy pE pB pO).other = round2 (pO * assetTotal) ∧
    f'.equity = round2 (f.equity * (1 + e)) ∧
    f'.bonds = round2 (f.bonds * (1 + b)) ∧
    f'.other = round2 (f.other * (1 + o)) ∧
    (f.total ≠ 0 →
      (f.addPremiums amt).equity = f.equity + (f.equity / f.total) * amt ∧
      (f.withdraw amt).equity = f.equity - (f.equity / f.total) * amt) := by
  unfold pensFund.addInvestmentEarnings at hE
  by_cases hA : f.total = 0
  · rw [if_pos hA] at hE
    exact absurd hE (by simp)
  · rw [if_neg hA] at hE
    obtain ⟨h1, h2⟩ := Prod.mk.injEq .. ▸ Option.some.inj hE
    refine ⟨rfl, rfl, rfl, ?_, ?_, ?_, ?_⟩
    · rw [← h1]
    · rw [← h1]
    · rw [← h1]
    · intro hne
      unfold pensFund.addPremiums pensFund.withdraw
      rw [if_neg hne, if_neg hne]
      exact ⟨rfl, rfl⟩

/-- C2 as stated is false: `addPremiums` does not round.  Adding premium 1
to (1, 1, 1) leaves equity = 4/3, which is not a two-decimal value. -/
theorem balance_rounding_policy_counterexample :
    (fundC2.addPremiums 1).equity ≠ round2 ((fundC2.addPremiums 1).equity) := by
  have h1 : (fundC2.addPremiums 1).equity = 4/3 := by
    norm_num [pensFund.addPremiums, pensFund.total, fundC2]
  have h2 : round2 (4/3) = 133/100 := by
    unfold round2
    rw [roundHalfEven_eq_of_bounds (100 * (4/3)) 133 (by norm_num) (by norm_num)]
    norm_num
  rw [h1, h2]
  norm_num

theorem balance_rounding_policy_witness :
    (pensFund.init 200 2020 (3/5) (3/10) (1/10)).equity = round2 ((3/5) * 200) ∧
    fundC2w.total ≠ 0 ∧
    (fundC2w.addPremiums 50).equity =
      fundC2w.equity + (fundC2w.equity / fundC2w.total) * 50 := by
  have hne : fundC2w.total ≠ 0 := by norm_num [fundC2w, pensFund.total]
  have hE : fundC2w.addInvestmentEarnings 0 0 0 =
      some ({ fundC2w with equity := round2 (fundC2w.equity * (1 + 0)),
                           bonds := round2 (fundC2w.bonds * (1 + 0)),
                           other := round2 (fundC2w.other * (1 + 0)) },
            ((round2 (fundC2w.equity * (1 + 0)) + round2 (fundC2w.bonds * (1 + 0)) +
              round2 (fundC2w.other * (1 + 0))) - fundC2w.total) / fundC2w.total,
            fundC2w.total) := by
    unfold pensFund.addInvestmentEarnings
    rw [if_neg hne]
  obtain ⟨a1, _, _, _, _, _, a7⟩ :=
    balance_rounding_policy 200 2020 (3/5) (3/10) (1/10) fundC2w _ 50 0 0 0 _ _ hE
  exact ⟨a1, hne, (a7 hne).1⟩

/-- C7: `updateLedger Y` writes the current balances to ledger entry `Y`,
leaves every other year's entry unchanged, and is the only fund operation
that changes `currentYear`. -/
theorem updateLedger_frame (f : pensFund) (Y y : ℤ) (amt e b o : ℚ) (hy : y ≠ Y) :
    (f.updateLedger Y).ledger y = f.ledger y ∧
    (f.updateLedger Y).ledger Y = some (f.equity, f.bonds, f.other) ∧
    (f.updateLedger Y).currentYear = Y ∧
    (f.addPremiums amt).currentYear = f.currentYear ∧
    (f.withdraw amt).currentYear = f.currentYear ∧
    (f.payBenefits amt).1.currentYear = f.currentYear ∧
    f.payGo.1.currentYear = f.currentYear ∧
    (∀ f' r A, f.addInvestmentEarnings e b o = some (f', r, A) →
      f'.currentYear = f.currentYear) := by
  refine ⟨?_, ?_, rfl, ?_, ?_, ?_, ?_, ?_⟩
  · unfold pensFund.updateLedger
    simp only
    rw [if_neg hy]
  · unfold pensFund.updateLedger
    simp
  · unfold pensFund.addPremiums
    split <;> rfl
  · unfold pensFund.withdraw
    split <;> rfl
  · unfold pensFund.payBenefits pensFund.payGo
    split
    · unfold pensFund.withdraw
      split <;> rfl
    · unfold pensFund.withdraw
      split <;> rfl
  · unfold pensFund.payGo
    split <;> rfl
  · intro f' r A hE
    unfold pensFund.addInvestmentEarnings at hE
    simp only [] at hE
    split at hE
    · exact absurd hE (by simp)
    · obtain ⟨h1, _⟩ := Prod.mk.injEq .. ▸ Option.some.inj hE
      rw [← h1]

theorem updateLedger_frame_witness :
    (2020 : ℤ) ≠ 2021 ∧
    (fundC7.updateLedger 2021).ledger 2020 = some (5, 3, 2) ∧
    (fundC7.updateLedger 2021).ledger 2021 = some (7, 2, 1) ∧
    (fundC7.updateLedger 2021).currentYear = 2021 ∧
    (fundC7.addPremiums 4).currentYear = 2020 := by
  have h := updateLedger_frame fundC7 2021 2020 4 0 0 0 (by norm_num)
  refine ⟨by norm_num, ?_, ?_, h.2.2.1, ?_⟩
  · rw [h.1]; norm_num [fundC7]
  · rw [h.2.1]; norm_num [fundC7]
  · rw [h.2.2.2.1]; norm_num [fundC7]

/-- C8: `annualReport` on a year absent from the ledger returns the
descriptive not-found value; on a recorded year it returns that year's
balances with the total rounded to two decimals; the sentinel year 0
reports the current year. -/
theorem annualReport_not_found (f : pensFund) (y : ℤ) (t : ℚ × ℚ × ℚ) :
    (y ≠ 0 → f.ledger y = none → f.annualReport y = Report.notFound y) ∧
    (y ≠ 0 → f.ledger y = some t →
      f.annualReport y = Report.found t.1 t.2.1 t.2.2 (round2 (sumBal t))) ∧
    f.annualReport 0 = f.annualReport f.currentYear := by
  refine ⟨?_, ?_, ?_⟩
  · intro hy hnone
    unfold pensFund.annualReport
    rw [if_neg hy]
    simp only []
    rw [hnone]
  · intro hy hsome
    unfold pensFund.annualReport
    rw [if_neg hy]
    simp only []
    rw [hsome]
  · unfold pensFund.annualReport
    simp

theorem annualReport_not_found_witness :
    (2019 : ℤ) ≠ 0 ∧ fundC8.ledger 2019 = none ∧
    fundC8.annualReport 2019 = Report.notFound 2019 ∧
    fundC8.ledger 2020 = some (120, 60, 20) ∧
    fundC8.annualReport 2020 = Report.found 120 60 20 200 := by
  have hnone : fundC8.ledger 2019 = none := by norm_num [fundC8]
  have hsome : fundC8.ledger 2020 = some (120, 60, 20) := by norm_num [fundC8]
  have h := annualReport_not_found fundC8 2019 (120, 60, 20)
  have h2 := annualReport_not_found fundC8 2020 (120, 60, 20)
  refine ⟨by norm_num, hnone, h.1 (by norm_num) hnone, hsome, ?_⟩
  rw [h2.2.1 (by norm_num) hsome]
  have : round2 (sumBal ((120 : ℚ), (60 : ℚ), (20 : ℚ))) = 200 := by
    have : sumBal ((120 : ℚ), (60 : ℚ), (20 : ℚ)) = 200 := by norm_num [sumBal]
    rw [this]
    exact round2_of_mul_eq 200 20000 (by norm_num)
  rw [this]

/-- C9: `addInvestmentEarnings` divides by the prior total without a
guard: it fails (uncaught `ZeroDivisionError`) exactly when the balances
sum to 0, and otherwise returns the realized return computed from the
post-rounding balances together with the prior total. -/
theorem addInvestmentEarnings_unguarded (f : pensFund) (e b o : ℚ) :
    (f.total = 0 → f.addInvestmentEarnings e b o = none) ∧
    (f.total ≠ 0 →
      f.addInvestmentEarnings e b o =
        some ({ f with equity := round2 (f.equity * (1 + e)),
                       bonds := round2 (f.bonds * (1 + b)),
                       other := round2 (f.other * (1 + o)) },
              ((round2 (f.equity * (1 + e)) + round2 (f.bonds * (1 + b)) +
                round2 (f.other * (1 + o))) - f.total) / f.total,
              f.total)) := by
  constructor
  · intro h
    unfold pensFund.addInvestmentEarnings
    rw [if_pos h]
  · intro h
    unfold pensFund.addInvestmentEarnings
    rw [if_neg h]

theorem addInvestmentEarnings_unguarded_witness :
    fundC9.total = 0 ∧ fundC9.addInvestmentEarnings (4/100) 0 0 = none ∧
    fundC9b.total ≠ 0 ∧ (fundC9b.addInvestmentEarnings (4/100) 0 0).isSome = true := by
  have h0 : fundC9.total = 0 := by norm_num [fundC9, pensFund.total]
  have h1 : fundC9b.total ≠ 0 := by norm_num [fundC9b, pensFund.total]
  refine ⟨h0, (addInvestmentEarnings_unguarded fundC9 (4/100) 0 0).1 h0, h1, ?_⟩
  rw [(addInvestmentEarnings_unguarded fundC9b (4/100) 0 0).2 h1]
  rfl

theorem round2_zero : round2 0 = 0 := round2_of_mul_eq 0 0 (by norm_num)

/-- Characterisation of the successful outcomes of `growthRateStep`. -/
theorem growthRateStep_spec (newUAL oldUAL liability gr : ℚ)
    (h : growthRateStep newUAL oldUAL liability = some gr) :
    (oldUAL ≠ 0 → gr = round2 ((newUAL - oldUAL) * 100 / oldUAL)) ∧
    (oldUAL = 0 → newUAL ≠ 0 → gr = round2 (newUAL * 100 / liability)) ∧
    (oldUAL = 0 → newUAL = 0 → gr = round2 0) := by
  unfold growthRateStep at h
  refine ⟨?_, ?_, ?_⟩
  · intro h1
    rw [if_pos h1] at h
    exact (Option.some.inj h).symm
  · intro h1 h2
    rw [if_neg (by simp [h1]), if_pos h2] at h
    by_cases h3 : liability = 0
    · rw [if_pos h3] at h
      exact absurd h (by simp)
    · rw [if_neg h3] at h
      exact (Option.some.inj h).symm
  · intro h1 h2
    rw [if_neg (by simp [h1]), if_neg (by simp [h2])] at h
    exact (Option.some.inj h).symm

/-- C3 (amended): the contribution-rate step is guarded against division
by zero only in the `popGrowth = 0` branch (falling back to 0 when
`totalPay = 0`); in the `popGrowth ≠ 0` branch with `totalPay = 0` the
division by zero is unguarded and the step fails. -/
theorem contributionRate_guard (normalCost payGo totalPay : ℚ) (popGrowth : ℤ) :
    (popGrowth ≠ 0 → totalPay ≠ 0 →
      computeCR normalCost payGo totalPay popGrowth =
        some ((normalCost + payGo) / (totalPay * (popGrowth : ℚ)))) ∧
    (popGrowth ≠ 0 → totalPay = 0 →
      computeCR normalCost payGo totalPay popGrowth = none) ∧
    (popGrowth = 0 → totalPay = 0 →
      computeCR normalCost payGo totalPay popGrowth = some 0) ∧
    (popGrowth = 0 → totalPay ≠ 0 →
      computeCR normalCost payGo totalPay popGrowth =
        some ((normalCost + payGo) / totalPay)) := by
  refine ⟨?_, ?_, ?_, ?_⟩
  · intro h1 h2
    unfold computeCR
    rw [if_pos h1, if_neg (mul_ne_zero h2 (Int.cast_ne_zero.mpr h1))]
  · intro h1 h2
    unfold computeCR
    rw [if_pos h1, if_pos (by rw [h2]; ring)]
  · intro h1 h2
    unfold computeCR
    rw [if_neg (by simp [h1]), if_pos h2]
  · intro h1 h2
    unfold computeCR
    rw [if_neg (by simp [h1]), if_neg h2]

/-- Concrete evaluation of one full `advanceOneYear` on `planW`. -/
theorem advance_planW : advanceOneYear planW 0 0 1000 1 0 0 0 = some planW2 := by
  have e0 : round2 0 = 0 := round2_zero
  have e1 : round2 1 = 1 := round2_of_mul_eq 1 100 (by norm_num)
  have e50 : round2 50 = 50 := round2_of_mul_eq 50 5000 (by norm_num)
  have e500 : round2 500 = 500 := round2_of_mul_eq 500 50000 (by norm_num)
  have e1000 : round2 1000 = 1000 := round2_of_mul_eq 1000 100000 (by norm_num)
  norm_num [advanceOneYear, computeCR, growthRateStep, pensFund.addInvestmentEarnings,
    pensFund.addPremiums, pensFund.payBenefits, pensFund.withdraw, pensFund.payGo,
    pensFund.updateLedger, pensFund.total, sumBal, planW, planW2, fundP, max_def,
    e0, e1, e50, e500, e1000]

/-- C3 as stated is false: with `popGrowth = 3` and `totalPay = 0` the
contribution-rate step fails instead of yielding 0, and the failure aborts
the whole `advanceOneYear` call (raw payroll 0 makes `totalPay = 0`). -/
theorem contributionRate_guard_counterexample :
    computeCR 0 0 0 3 = none ∧ computeCR 0 0 0 3 ≠ some 0 ∧
    advanceOneYear planW 3 0 1000 0 0 0 0 = none := by
  have h : computeCR 0 0 0 3 = none := by norm_num [computeCR]
  have e0 : round2 0 = 0 := round2_zero
  have e500 : round2 500 = 500 := round2_of_mul_eq 500 50000 (by norm_num)
  have e1000 : round2 1000 = 1000 := round2_of_mul_eq 1000 100000 (by norm_num)
  refine ⟨h, by rw [h]; simp, ?_⟩
  norm_num [advanceOneYear, computeCR, pensFund.addInvestmentEarnings,
    pensFund.addPremiums, pensFund.payBenefits, pensFund.withdraw, pensFund.payGo,
    pensFund.updateLedger, pensFund.total, sumBal, planW, fundP,
    e0, e500, e1000]

theorem contributionRate_guard_witness :
    (3 : ℤ) ≠ 0 ∧ (2 : ℚ) ≠ 0 ∧
    computeCR 4 1 2 3 = some ((4 + 1) / (2 * 3)) ∧
    computeCR 4 1 0 0 = some 0 := by
  refine ⟨by norm_num, by norm_num, ?_, (contributionRate_guard 4 1 0 0).2.2.1 rfl rfl⟩
  rw [(contributionRate_guard 4 1 2 3).1 (by norm_num) (by norm_num)]
  norm_num

/-- C4: after a successful `advanceOneYear`, the stored UAL is
`max(liability − assets − payGo, 0)` and the growth rate follows the
documented three-way fallback, rounded to two decimals. -/
theorem ual_growthRate_step (p : pensPlan) (popGrowth : ℤ) (benefit rawL rawP e b o : ℚ)
    (p' : pensPlan) (h : advanceOneYear p popGrowth benefit rawL rawP e b o = some p') :
    p'.ual = max (p'.liability - p'.assets - p'.payGo) 0 ∧
    (p.ual ≠ 0 → p'.growthRate = round2 ((p'.ual - p.ual) * 100 / p.ual)) ∧
    (p.ual = 0 → p'.ual ≠ 0 → p'.growthRate = round2 (p'.ual * 100 / p'.liability)) ∧
    (p.ual = 0 → p'.ual = 0 → p'.growthRate = 0) := by
  unfold advanceOneYear at h
  split at h
  · exact absurd h (by simp)
  · next f1 r A hE =>
    simp only [] at h
    split at h
    · exact absurd h (by simp)
    · next cr hcr =>
      split at h
      · exact absurd h (by simp)
      · next gr hgr =>
        obtain rfl := Option.some.inj h
        obtain ⟨g1, g2, g3⟩ := growthRateStep_spec _ _ _ _ hgr
        refine ⟨by simp, ?_, ?_, ?_⟩
        · intro hu
          simpa using g1 hu
        · intro hu hu'
          simp only at hu' ⊢
          simpa using g2 hu (by simpa using hu')
        · intro hu hu'
          simp only at hu' ⊢
          rw [g3 hu (by simpa using hu'), round2_zero]

theorem ual_growthRate_step_witness :
    planW.ual = 0 ∧ planW2.ual = 500 ∧ planW2.liability = 1000 ∧
    planW2.growthRate = 50 ∧
    planW2.ual = max (planW2.liability - planW2.assets - planW2.payGo) 0 := by
  obtain ⟨h1, _, h3, _⟩ :=
    ual_growthRate_step planW 0 0 1000 1 0 0 0 planW2 advance_planW
  have hu0 : planW.ual = 0 := rfl
  have hu : planW2.ual = 500 := rfl
  have hl : planW2.liability = 1000 := rfl
  refine ⟨hu0, hu, hl, ?_, h1⟩
  rw [h3 hu0 (by rw [hu]; norm_num), hu, hl]
  rw [show (500 : ℚ) * 100 / 1000 = 50 by norm_num]
  exact round2_of_mul_eq 50 5000 (by norm_num)

/-- C6: within a successful `advanceOneYear`, the fund operations happen
in order: the earnings step runs first on the pre-contribution fund and
yields `r` and prior assets `A`; premiums `premiumRate × normalCost` go to
the resulting fund; `payBenefits benefit` runs next and its (rounded)
result is the stored `payGo`; finally the ledger is snapshotted for the
incremented year and `assets` is that snapshot's total. -/
theorem advance_fund_sequence (p : pensPlan) (popGrowth : ℤ) (benefit rawL rawP e b o : ℚ)
    (p' : pensPlan) (h : advanceOneYear p popGrowth benefit rawL rawP e b o = some p') :
    ∃ f1 r A, p.fund.addInvestmentEarnings e b o = some (f1, r, A) ∧
      p'.r = round2 (r * 100) ∧
      p'.fund = ((f1.addPremiums (p.pr * (round2 rawL - p.liability))).payBenefits
                  benefit).1.updateLedger (p.currentYear + 1) ∧
      p'.payGo = round2 ((f1.addPremiums (p.pr * (round2 rawL - p.liability))).payBenefits
                  benefit).2 ∧
      p'.currentYear = p.currentYear + 1 ∧
      p'.fund.ledger p'.currentYear =
        some (((f1.addPremiums (p.pr * (round2 rawL - p.liability))).payBenefits
                benefit).1.equity,
              ((f1.addPremiums (p.pr * (round2 rawL - p.liability))).payBenefits
                benefit).1.bonds,
              ((f1.addPremiums (p.pr * (round2 rawL - p.liability))).payBenefits
                benefit).1.other) ∧
      p'.assets = sumBal ((p'.fund.ledger p'.currentYear).getD (0, 0, 0)) := by
  unfold advanceOneYear at h
  split at h
  · exact absurd h (by simp)
  · next f1 r A hE =>
    simp only [] at h
    split at h
    · exact absurd h (by simp)
    · next cr hcr =>
      split at h
      · exact absurd h (by simp)
      · next gr hgr =>
        obtain rfl := Option.some.inj h
        refine ⟨f1, r, A, hE, rfl, rfl, rfl, rfl, ?_, rfl⟩
        simp only []
        unfold pensFund.updateLedger
        simp

theorem advance_fund_sequence_witness :
    planW2.currentYear = planW.currentYear + 1 ∧
    planW2.assets = sumBal ((planW2.fund.ledger planW2.currentYear).getD (0, 0, 0)) := by
  obtain ⟨f1, r, A, hE, h1, h2, h3, h4, h5, h6⟩ :=
    advance_fund_sequence planW 0 0 1000 1 0 0 0 planW2 advance_planW
  exact ⟨h4, h6⟩

end UalRate
